import Mathlib

/-!
Shallow embedding of the mpc-display client (src/mpc-display.py, with the
windowing function shared verbatim with src/newclient.py).  Python dicts with
fixed keys are embedded as records of Option fields (a missing key is none);
numeric string fields that the code passes through int()/float() are embedded
as already-parsed numbers; Python exceptions are embedded as Except/Option.
-/

namespace MpcDisplay

/-- ESC character used for ANSI colour codes. -/
def ESC : String := "\x1b"

/-- METADATA_SEP constant from the source. -/
def METADATA_SEP : String := " & "

/-- PLAYLIST_SEP constant from the source. -/
def PLAYLIST_SEP : String := " * "

/-- The `if display%2 == 0: tail += 1` adjustment of `getPlistIndex`. -/
def evenBump (display : Nat) : Nat := if display % 2 = 0 then 1 else 0

theorem evenBump_eq (display : Nat) : evenBump display = 1 - display % 2 := by
  unfold evenBump
  rcases Nat.mod_two_eq_zero_or_one display with h | h <;> simp [h]

/--
`getPlistIndex(display, total, curr)` from mpc-display.py lines 478-503
(identical to newclient.py lines 330-359).  `display` is the viewport height,
`total` the list length, `curr` the cursor.  The source names
`half = int((display-1)/2)`, `head = curr-half`,
`tail = curr+half (+1 when display is even)`, `headError = head < 0`,
`tailError = tail >= total`; they are inlined here.  The Python
`raise Exception` in the simultaneous headError/tailError branch is embedded
as `none`.  `int((display-1)/2)` truncates toward zero; for every natural
`display` this agrees with Nat subtraction-then-division `(display-1)/2`
(for `display = 0` Python yields `int(-0.5) = 0`, as does `(0-1)/2 = 0` on
Nat).
-/
def getPlistIndex (display total curr : Nat) : Option Int :=
  if total ≤ display then
    some 0
  else if ((curr : Int) - ((display - 1) / 2 : Nat) < 0) ∧
      (total ≤ curr + (display - 1) / 2 + evenBump display) then
    none
  else if (curr : Int) - ((display - 1) / 2 : Nat) < 0 then
    some 0
  else if total ≤ curr + (display - 1) / 2 + evenBump display then
    some ((total : Int) - display)
  else
    some ((curr : Int) - ((display - 1) / 2 : Nat))

/-- C1: the windowing function returns a clamped window containing the cursor.
For every `total, height=display, cursor=curr` with `cursor < total`, the
function returns a start index with: start = 0 when the list fits
(`total ≤ display`); otherwise `0 ≤ start`, `start + display ≤ total`, and for
a positive height the cursor lies in `[start, start + display)`; the window end
computed by the callers, `min total (start + display)`, always equals
`start + min display total`.  The four concrete examples of the spec hold. -/
theorem getPlistIndex_window_correct (display total curr : Nat)
    (hc : curr < total) :
    (∃ start : Int, getPlistIndex display total curr = some start ∧
      (total ≤ display → start = 0) ∧
      (display < total →
        0 ≤ start ∧ start + display ≤ total ∧
        (0 < display → start ≤ curr ∧ (curr : Int) < start + display)) ∧
      min (total : Int) (start + display) = start + min (display : Int) total) ∧
    getPlistIndex 5 3 1 = some 0 ∧
    getPlistIndex 3 10 0 = some 0 ∧
    getPlistIndex 3 10 9 = some 7 ∧
    getPlistIndex 3 10 5 = some 4 := by
  refine ⟨?_, by decide, by decide, by decide, by decide⟩
  unfold getPlistIndex
  simp only [evenBump_eq]
  split_ifs with h1 h2 h3 h4
  · exact ⟨0, rfl, fun _ => rfl, fun h => by omega, by omega⟩
  · exact absurd h2 (by omega)
  · exact ⟨0, rfl, fun h => by omega,
      fun _ => ⟨le_refl 0, by omega, fun _ => ⟨by omega, by omega⟩⟩, by omega⟩
  · exact ⟨(total : Int) - display, rfl, fun h => by omega,
      fun _ => ⟨by omega, by omega, fun _ => ⟨by omega, by omega⟩⟩, by omega⟩
  · exact ⟨(curr : Int) - ((display - 1) / 2 : Nat), rfl, fun h => by omega,
      fun _ => ⟨by omega, by omega, fun _ => ⟨by omega, by omega⟩⟩, by omega⟩

/-- Witness for C1 at display = 3, total = 10, curr = 5. -/
theorem getPlistIndex_window_correct_witness :
    ∃ start : Int, getPlistIndex 3 10 5 = some start ∧ 0 ≤ start := by
  obtain ⟨⟨s, h1, _, h3, _⟩, _⟩ :=
    getPlistIndex_window_correct 3 10 5 (by decide)
  exact ⟨s, h1, (h3 (by decide)).1⟩

/-- C2: under the precondition `total > display` taken with any cursor
`0 ≤ curr < total`, the simultaneous-boundary-error branch
(`head < 0` and `tail ≥ total` at once, the raise) is dead: the two error
conditions are never both true, and the function always returns a value. -/
theorem getPlistIndex_raise_unreachable (display total curr : Nat)
    (hd : display < total) (_hc : curr < total) :
    ¬ (((curr : Int) - ((display - 1) / 2 : Nat) < 0) ∧
        (total ≤ curr + (display - 1) / 2 + evenBump display)) ∧
    (getPlistIndex display total curr).isSome := by
  rw [evenBump_eq]
  constructor
  · intro hboth
    omega
  · unfold getPlistIndex
    simp only [evenBump_eq]
    split_ifs with h1 h2 h3 h4 <;>
      first
        | rfl
        | exact absurd h2 (by omega)

/-- Witness for C2 at display = 3, total = 10, curr = 0. -/
theorem getPlistIndex_raise_unreachable_witness :
    (getPlistIndex 3 10 0).isSome := by
  exact (getPlistIndex_raise_unreachable 3 10 0 (by decide) (by decide)).2

/-- A value held in a server-response dict: a string or a list of strings
(multi-valued tags such as several artists). -/
inductive MVal where
  | s (v : String)
  | l (vs : List String)
deriving DecidableEq

/-- The cached `self.status` dict, with the keys the code reads.  A missing
key is `none`.  Numeric fields that the code parses with int()/float() are
embedded already parsed (`song` is the queue position, `elapsed`/`duration`
are whole seconds). -/
structure StatusR where
  volume : Option Int
  state : Option String
  song : Option Int
  elapsed : Option Nat
  duration : Option Nat
  xfade : Option Int
  repeat_ : Option String
  random : Option String
  single : Option String
  consume : Option String
  playlistlength : Option String
deriving DecidableEq

/-- The cached `self.song` dict (current track), with the keys read by
updateMetadata and displayLoop. -/
structure SongR where
  artist : Option MVal
  title : Option String
  album : Option String
  track : Option Int
  id : Option String
  pos : Option Nat
deriving DecidableEq

/-- The album-total memo: `self.album` and `self.albumTotal`
(initializeCache lines 126-127). -/
structure AlbumCache where
  album : Option String
  albumTotal : Nat
deriving DecidableEq

/-- The flat `self.metadata` record built by updateMetadata. -/
structure Metadata where
  artist : String
  title : String
  alb_track : Int
  alb_total : Nat
  album : String
  state : Option String
  lst_track : Int
  lst_total : Nat
  time_curr : Nat
  time_song : Nat
  time_pct : Nat
  ersc : String
  volume : Int
  xfade : Int
deriving DecidableEq

/-- `getProp(data, prop, default)` from lines 426-430: dict lookup returning
`default` on KeyError.  The dict lookup itself is embedded as the Option
field, so `data` is that field. -/
def getProp {α : Type} (data : Option α) (default : α) : α :=
  data.getD default

/-- The loop of getERSC (lines 446-448): walk the four flag values alongside
the characters of "ersc", uppercasing where the value is the string "1".
A missing key (`none`) raises KeyError, embedded as `Except.error`. -/
def erscLoop : List (Option String) → List Char → Except Unit (List Char)
  | [], cs => Except.ok cs
  | _ :: _, [] => Except.ok []
  | some v :: ks, c :: cs => do
      let rest ← erscLoop ks cs
      Except.ok ((if v = "1" then c.toUpper else c) :: rest)
  | none :: _, _ :: _ => Except.error ()

/-- `getERSC(status)` from lines 443-449: keys = [repeat, random, single,
consume] in that order, vals = list("ersc"), joined back to a string. -/
def getERSC (status : StatusR) : Except Unit String :=
  (erscLoop [status.repeat_, status.random, status.single, status.consume]
    ['e', 'r', 's', 'c']).map fun cs => String.mk cs

/-- `getAlbumTotal(song)` from lines 432-441.  `find` abstracts
`len(self.client.find("album", album))`.  Returns the updated cache, the
returned total, and the number of external find calls made (0 or 1). -/
def getAlbumTotal (cache : AlbumCache) (song : SongR)
    (find : Option String → Nat) : AlbumCache × Nat × Nat :=
  -- album = self.getProp(song, "album", None): with default None the dict
  -- lookup is the Option field song.album itself.
  if cache.album ≠ song.album then
    (⟨song.album, find song.album⟩, find song.album, 1)
  else
    (cache, cache.albumTotal, 0)

/-- `updateMetadata()` from lines 131-168, as a function of the cached
status/song/plist snapshots and the album memo.  The try/except
ZeroDivisionError around time_pct is embedded as the zero-duration guard; the
try/except KeyError around getERSC is embedded as the match on its Except
result; the final artist list join (lines 164-165) is the match on MVal. -/
def updateMetadata (status : StatusR) (song : SongR) (plist : List SongR)
    (cache : AlbumCache) (find : Option String → Nat) :
    Metadata × AlbumCache :=
  let artist0 := getProp song.artist (MVal.s "Unknown")
  let r := getAlbumTotal cache song find
  let time_curr := getProp status.elapsed 0
  let time_song := getProp status.duration 0
  ({ artist :=
      match artist0 with
      | MVal.s v => v
      | MVal.l vs => String.intercalate METADATA_SEP vs
   , title := getProp song.title "Unknown"
   , alb_track := getProp song.track 0
   , alb_total := r.2.1
   , album := getProp song.album "Unknown"
     -- getProp(status, "state", None): default None makes the lookup the
     -- Option field itself.
   , state := status.state
   , lst_track := getProp status.song (-1) + 1
   , lst_total := plist.length
   , time_curr := time_curr
   , time_song := time_song
   , time_pct := if time_song = 0 then 0 else 100 * time_curr / time_song
   , ersc :=
      match getERSC status with
      | Except.ok s => s
      | Except.error _ => "????"
   , volume := getProp status.volume 0
   , xfade := getProp status.xfade 0 }, r.1)

/-- All-absent status snapshot (every key missing). -/
def emptyStatus : StatusR :=
  ⟨none, none, none, none, none, none, none, none, none, none, none⟩

/-- All-absent current-song snapshot. -/
def emptySong : SongR := ⟨none, none, none, none, none, none⟩

/-- The initial album memo from initializeCache (album = None, total = 0). -/
def emptyCache : AlbumCache := ⟨none, 0⟩

/-- C6: the deriver computes percentElapsed as floor(100 × elapsed /
duration) (Nat division is flooring) for positive duration, and 0 when the
duration is 0; derive(0,0) = 0 and derive(30,120) = 25. -/
theorem updateMetadata_time_pct (st : StatusR) (sg : SongR)
    (pl : List SongR) (cache : AlbumCache) (f : Option String → Nat) :
    ((updateMetadata st sg pl cache f).1.time_song = 0 →
      (updateMetadata st sg pl cache f).1.time_pct = 0) ∧
    (0 < (updateMetadata st sg pl cache f).1.time_song →
      (updateMetadata st sg pl cache f).1.time_pct =
        100 * (updateMetadata st sg pl cache f).1.time_curr /
          (updateMetadata st sg pl cache f).1.time_song) ∧
    (updateMetadata
      { emptyStatus with elapsed := some 0, duration := some 0 }
      emptySong [] emptyCache f).1.time_pct = 0 ∧
    (updateMetadata
      { emptyStatus with elapsed := some 30, duration := some 120 }
      emptySong [] emptyCache f).1.time_pct = 25 := by
  refine ⟨?_, ?_, rfl, rfl⟩ <;>
    dsimp only [updateMetadata] <;> intro h
  · simp [h]
  · rw [if_neg (by omega)]

/-- Witness for C6 at elapsed = 30, duration = 120. -/
theorem updateMetadata_time_pct_witness :
    (updateMetadata
      { emptyStatus with elapsed := some 30, duration := some 120 }
      emptySong [] emptyCache (fun _ => 0)).1.time_pct =
      100 * (updateMetadata
        { emptyStatus with elapsed := some 30, duration := some 120 }
        emptySong [] emptyCache (fun _ => 0)).1.time_curr /
        (updateMetadata
          { emptyStatus with elapsed := some 30, duration := some 120 }
          emptySong [] emptyCache (fun _ => 0)).1.time_song := by
  exact (updateMetadata_time_pct
    { emptyStatus with elapsed := some 30, duration := some 120 }
    emptySong [] emptyCache (fun _ => 0)).2.1 (by decide)

/-- C7: getERSC walks repeat, random, single, consume in that order over the
base string "ersc", uppercasing position i exactly when flag i has value "1";
flags 1,0,1,0 give "ErSc". -/
theorem getERSC_flag_order (r a s c : String) :
    getERSC { emptyStatus with
        repeat_ := some r
        random := some a
        single := some s
        consume := some c } =
      Except.ok (String.mk
        [if r = "1" then 'E' else 'e',
         if a = "1" then 'R' else 'r',
         if s = "1" then 'S' else 's',
         if c = "1" then 'C' else 'c']) ∧
    getERSC { emptyStatus with
        repeat_ := some "1"
        random := some "0"
        single := some "1"
        consume := some "0" } = Except.ok "ErSc" := by
  constructor
  · by_cases hr : r = "1" <;> by_cases ha : a = "1" <;>
      by_cases hs : s = "1" <;> by_cases hc : c = "1" <;>
      simp [getERSC, erscLoop, hr, ha, hs, hc, Except.map] <;> rfl
  · rfl

theorem getERSC_error_of_missing (st : StatusR)
    (h : st.repeat_ = none ∨ st.random = none ∨ st.single = none ∨
      st.consume = none) :
    getERSC st = Except.error () := by
  unfold getERSC
  rcases h with h | h | h | h
  · rw [h]; rfl
  · cases hr : st.repeat_
    · rfl
    · rw [h]; rfl
  · cases hr : st.repeat_
    · rfl
    · cases ha : st.random
      · rfl
      · rw [h]; rfl
  · cases hr : st.repeat_
    · rfl
    · cases ha : st.random
      · rfl
      · cases hs : st.single
        · rfl
        · rw [h]; rfl

/-- C8: a missing key never propagates an error out of the deriver; the
documented defaults appear instead: absent flag keys give the "????"
sentinel, missing numerics (track, elapsed, duration, volume, crossfade)
give 0, missing text (title, artist, album) gives "Unknown". -/
theorem updateMetadata_defaults (st : StatusR) (sg : SongR)
    (pl : List SongR) (cache : AlbumCache) (f : Option String → Nat) :
    (sg.title = none →
      (updateMetadata st sg pl cache f).1.title = "Unknown") ∧
    (sg.artist = none →
      (updateMetadata st sg pl cache f).1.artist = "Unknown") ∧
    (sg.album = none →
      (updateMetadata st sg pl cache f).1.album = "Unknown") ∧
    (sg.track = none →
      (updateMetadata st sg pl cache f).1.alb_track = 0) ∧
    (st.elapsed = none →
      (updateMetadata st sg pl cache f).1.time_curr = 0) ∧
    (st.duration = none →
      (updateMetadata st sg pl cache f).1.time_song = 0 ∧
      (updateMetadata st sg pl cache f).1.time_pct = 0) ∧
    (st.volume = none →
      (updateMetadata st sg pl cache f).1.volume = 0) ∧
    (st.xfade = none →
      (updateMetadata st sg pl cache f).1.xfade = 0) ∧
    ((st.repeat_ = none ∨ st.random = none ∨ st.single = none ∨
        st.consume = none) →
      (updateMetadata st sg pl cache f).1.ersc = "????") := by
  refine ⟨fun h => ?_, fun h => ?_, fun h => ?_, fun h => ?_, fun h => ?_,
    fun h => ?_, fun h => ?_, fun h => ?_, fun h => ?_⟩
  · simp [updateMetadata, getProp, h]
  · simp [updateMetadata, getProp, h]
  · simp [updateMetadata, getProp, h]
  · simp [updateMetadata, getProp, h]
  · simp [updateMetadata, getProp, h]
  · simp [updateMetadata, getProp, h]
  · simp [updateMetadata, getProp, h]
  · simp [updateMetadata, getProp, h]
  · simp [updateMetadata, getERSC_error_of_missing st h]

/-- Witness for C8: the all-absent snapshot takes every default. -/
theorem updateMetadata_defaults_witness :
    (updateMetadata emptyStatus emptySong [] emptyCache
      (fun _ => 0)).1.title = "Unknown" ∧
    (updateMetadata emptyStatus emptySong [] emptyCache
      (fun _ => 0)).1.artist = "Unknown" ∧
    (updateMetadata emptyStatus emptySong [] emptyCache
      (fun _ => 0)).1.time_curr = 0 ∧
    (updateMetadata emptyStatus emptySong [] emptyCache
      (fun _ => 0)).1.ersc = "????" := by
  have h := updateMetadata_defaults emptyStatus emptySong [] emptyCache
    (fun _ => 0)
  exact ⟨h.1 rfl, h.2.1 rfl, h.2.2.2.2.1 rfl,
    h.2.2.2.2.2.2.2.2 (Or.inl rfl)⟩

/-- C9: the album-total memo is invalidated only on album change: equal
album means no find call and the cached count unchanged; a different album
means exactly one find call and the cache updated to the new album and
count. -/
theorem getAlbumTotal_memo (cache : AlbumCache) (sg : SongR)
    (f : Option String → Nat) :
    (sg.album = cache.album →
      getAlbumTotal cache sg f = (cache, cache.albumTotal, 0)) ∧
    (sg.album ≠ cache.album →
      getAlbumTotal cache sg f = (⟨sg.album, f sg.album⟩, f sg.album, 1)) := by
  constructor <;> intro h <;> unfold getAlbumTotal <;>
    split_ifs with hcond
  · exact absurd h.symm hcond
  · rfl
  · rfl
  · exact absurd (not_not.mp hcond).symm h

/-- Witness for C9: cache hit on album "X" makes no find call. -/
theorem getAlbumTotal_memo_witness :
    getAlbumTotal ⟨some "X", 5⟩ { emptySong with album := some "X" }
      (fun _ => 9) = (⟨some "X", 5⟩, 5, 0) := by
  exact (getAlbumTotal_memo ⟨some "X", 5⟩
    { emptySong with album := some "X" } (fun _ => 9)).1 rfl

/-- The notification subsystems idleLoop subscribes to (line 320). -/
inductive Subsystem where
  | player
  | mixer
  | options
  | playlist
deriving DecidableEq

/-- One step of the flag-setting loop of idleLoop (lines 342-349): player
sets status and song, mixer and options set status only, playlist sets
plist only. -/
def eventStep (fl : Bool × Bool × Bool) (e : Subsystem) : Bool × Bool × Bool :=
  match e with
  | Subsystem.player => (true, true, fl.2.2)
  | Subsystem.mixer => (true, fl.2.1, fl.2.2)
  | Subsystem.options => (true, fl.2.1, fl.2.2)
  | Subsystem.playlist => (fl.1, fl.2.1, true)

/-- The (status, song, plist) flags computed from one coalesced batch. -/
def eventFlags (events : List Subsystem) : Bool × Bool × Bool :=
  events.foldl eventStep (false, false, false)

/-- Observable effects of one idleLoop iteration. -/
structure IdleStep where
  fetchStatus : Bool
  fetchSong : Bool
  fetchPlist : Bool
  metaRebuilds : Nat
  redraws : Nat
deriving DecidableEq

/-- One iteration of idleLoop after the coalesced batch is collected
(lines 341-376): updateStatus/updateSong/updatePlist per the flags, one
updateMetadata call when the batch is non-empty, and in interactive mode
one set-then-clear of the display event (one redraw signal). -/
def idleStep (events : List Subsystem) (interactive : Bool) : IdleStep :=
  let fl := eventFlags events
  { fetchStatus := fl.1
    fetchSong := fl.2.1
    fetchPlist := fl.2.2
    metaRebuilds := if events.isEmpty then 0 else 1
    redraws := if interactive then 1 else 0 }

theorem eventFlags_go (l : List Subsystem) (fl : Bool × Bool × Bool) :
    ((l.foldl eventStep fl).1 = true ↔
      (fl.1 = true ∨ Subsystem.player ∈ l ∨ Subsystem.mixer ∈ l ∨
        Subsystem.options ∈ l)) ∧
    ((l.foldl eventStep fl).2.1 = true ↔
      (fl.2.1 = true ∨ Subsystem.player ∈ l)) ∧
    ((l.foldl eventStep fl).2.2 = true ↔
      (fl.2.2 = true ∨ Subsystem.playlist ∈ l)) := by
  induction l generalizing fl with
  | nil => simp
  | cons e t ih =>
    cases e <;> simp [List.foldl_cons, eventStep, ih] <;> tauto

/-- C3: per-topic selective refetch in one reconciler iteration: player
fetches status and track, mixer and options fetch status only, playlist
fetches the queue only, nothing else is fetched; a non-empty batch yields
exactly one updateMetadata call and one redraw signal however many events
it contains. -/
theorem idleStep_batch (events : List Subsystem) (h : events ≠ []) :
    ((idleStep events true).fetchStatus = true ↔
      (Subsystem.player ∈ events ∨ Subsystem.mixer ∈ events ∨
        Subsystem.options ∈ events)) ∧
    ((idleStep events true).fetchSong = true ↔
      Subsystem.player ∈ events) ∧
    ((idleStep events true).fetchPlist = true ↔
      Subsystem.playlist ∈ events) ∧
    (idleStep events true).metaRebuilds = 1 ∧
    (idleStep events true).redraws = 1 := by
  obtain ⟨hs, hg, hp⟩ := eventFlags_go events (false, false, false)
  cases events with
  | nil => exact absurd rfl h
  | cons e t =>
    refine ⟨?_, ?_, ?_, rfl, rfl⟩
    · simpa [idleStep, eventFlags] using hs
    · simpa [idleStep, eventFlags] using hg
    · simpa [idleStep, eventFlags] using hp

/-- Witness for C3 on the batch [mixer]: status fetched, one rebuild, one
redraw. -/
theorem idleStep_batch_witness :
    (idleStep [Subsystem.mixer] true).metaRebuilds = 1 ∧
    (idleStep [Subsystem.mixer] true).redraws = 1 ∧
    (idleStep [Subsystem.mixer] true).fetchStatus = true := by
  obtain ⟨h1, _, _, h4, h5⟩ := idleStep_batch [Subsystem.mixer] (by decide)
  exact ⟨h4, h5, h1.mpr (Or.inr (Or.inl (by simp)))⟩

/-- One iteration of the play branch of displayLoop (lines 382-406).
`statusA`/`songA` are the cached snapshots read before the timed wait,
`statusB`/`songB` those read after it (idleLoop may have replaced them),
`md` the shared metadata record.  `delayTime = 2`.  `interrupted` is the
return value of `displayEvent.wait(timeout=2)` (true when a notification
set the event before the timeout); the source DISCARDS that value, so the
parameter is unused below, exactly as in the code.  Line 397 adds 2 to
time_curr, then line 398 recomputes time_pct with NO ZeroDivisionError
guard: a zero time_song raises, embedded as `Except.error ()`. -/
def displayTick (statusA : StatusR) (songA : SongR) (interrupted : Bool)
    (statusB : StatusR) (songB : SongR) (md : Metadata) :
    Except Unit Metadata :=
  if getProp statusA.state "paused" = "play" then
    if songA.id = songB.id ∧ getProp statusB.state "paused" = "play" then
      if md.time_song = 0 then
        Except.error ()
      else
        Except.ok { md with
          time_curr := md.time_curr + 2
          time_pct := 100 * (md.time_curr + 2) / md.time_song }
    else
      Except.ok md
  else
    Except.ok md

/-- A playing status snapshot. -/
def playStatus : StatusR := { emptyStatus with state := some "play" }

/-- A current song with id 7. -/
def tickSong : SongR := { emptySong with id := some "7" }

/-- A metadata record mid-song: 30 of 120 seconds elapsed. -/
def sampleMd : Metadata :=
  { artist := "Unknown"
    title := "Unknown"
    alb_track := 0
    alb_total := 0
    album := "Unknown"
    state := some "play"
    lst_track := 0
    lst_total := 0
    time_curr := 30
    time_song := 120
    time_pct := 25
    ersc := "ersc"
    volume := 0
    xfade := 0 }

/-- C4 (amended): the ticker increments elapsed by exactly 2 and recomputes
the percentage whenever the track id and playState are unchanged across the
wait and the duration is non-zero, REGARDLESS of whether the wait was
interrupted (the source discards the wait result); when the track or state
changed, the increment is skipped and the metadata is left as the reconciler
published it. -/
theorem displayTick_increment (stA : StatusR) (sgA : SongR) (intr : Bool)
    (stB : StatusR) (sgB : SongR) (md : Metadata) :
    (getProp stA.state "paused" = "play" → sgA.id = sgB.id →
      getProp stB.state "paused" = "play" → md.time_song ≠ 0 →
      displayTick stA sgA intr stB sgB md =
        Except.ok { md with
          time_curr := md.time_curr + 2
          time_pct := 100 * (md.time_curr + 2) / md.time_song }) ∧
    (getProp stA.state "paused" = "play" →
      ¬(sgA.id = sgB.id ∧ getProp stB.state "paused" = "play") →
      displayTick stA sgA intr stB sgB md = Except.ok md) := by
  constructor
  · intro h1 h2 h3 h4
    unfold displayTick
    rw [if_pos h1, if_pos ⟨h2, h3⟩, if_neg h4]
  · intro h1 h2
    unfold displayTick
    rw [if_pos h1, if_neg h2]

/-- Witness for C4 at the sample inputs (uninterrupted full wait). -/
theorem displayTick_increment_witness :
    displayTick playStatus tickSong false playStatus tickSong sampleMd =
      Except.ok { sampleMd with time_curr := 32, time_pct := 26 } := by
  have h := (displayTick_increment playStatus tickSong false playStatus
    tickSong sampleMd).1 rfl rfl rfl (by decide)
  exact h.trans rfl

/-- C4 counterexample: with the wait interrupted early (interrupted = true)
and the track id and playState unchanged, the code still increments
time_curr (here 30 to 32): the increment is NOT skipped on interruption,
because the wait return value is discarded. -/
theorem displayTick_interrupted_still_increments :
    displayTick playStatus tickSong true playStatus tickSong sampleMd =
      Except.ok { sampleMd with time_curr := 32, time_pct := 26 } ∧
    sampleMd.time_curr = 30 := by
  exact ⟨rfl, rfl⟩

/-- A metadata record for a playing stream with no duration. -/
def zeroDurMd : Metadata := { sampleMd with time_song := 0, time_pct := 0 }

/-- C5 (code bug): the deriver guards the zero-duration division and writes
percentElapsed = 0, but the ticker recompute at line 398 has no
ZeroDivisionError guard: with playState play, unchanged track id and
time_song = 0 the tick raises instead of preserving the invariant. -/
theorem displayTick_zero_duration_raises :
    (updateMetadata
      { emptyStatus with
          state := some "play"
          elapsed := some 5
          duration := some 0 }
      emptySong [] emptyCache (fun _ => 0)).1.time_pct = 0 ∧
    displayTick playStatus tickSong false playStatus tickSong zeroDurMd =
      Except.error () := by
  exact ⟨rfl, rfl⟩

/-- Python single-character str.split: cuts the character list at every
separator, keeping empty pieces (so the result is never empty). -/
def splitOnChar (sep : Char) : List Char → List (List Char)
  | [] => [[]]
  | c :: rest =>
    match splitOnChar sep rest with
    | [] => [[c]]
    | g :: gs => if c = sep then [] :: g :: gs else (c :: g) :: gs

/-- Model of the Python expression filename.split("/")[-1]. -/
def lastPathComponent (f : String) : String :=
  String.mk ((splitOnChar '/' f.data).getLastD [])

/-- Lines 456-460 of formatTextPL, per property: tmp = getProp(song, i,
None); a list value is joined with METADATA_SEP; `if tmp:` keeps only a
non-empty string (None and "" are falsy). -/
def propText (v : Option MVal) : Option String :=
  match v with
  | none => none
  | some (MVal.s t) => if t = "" then none else some t
  | some (MVal.l ts) =>
      if String.intercalate METADATA_SEP ts = "" then none
      else some (String.intercalate METADATA_SEP ts)

/-- The entry-accumulation loop of formatTextPL (lines 453-460) over the
configured prop names; `song` is the queue-entry dict. -/
def plEntries (props : List String) (song : String → Option MVal) :
    List String :=
  props.foldl (fun acc p =>
    match propText (song p) with
    | none => acc
    | some v => acc ++ [v]) []

/-- Lines 461-467: join a non-empty entry list with PLAYLIST_SEP, otherwise
fall back to the tail of the filename; filename = getProp(song, "file",
None), and None.split (or list.split) raises AttributeError, embedded as
`Except.error`. -/
def plEntryText (props : List String) (song : String → Option MVal) :
    Except Unit String :=
  if plEntries props song ≠ [] then
    Except.ok (String.intercalate PLAYLIST_SEP (plEntries props song))
  else
    match song "file" with
    | some (MVal.s f) => Except.ok (lastPathComponent f)
    | some (MVal.l _) => Except.error ()
    | none => Except.error ()

/-- Python right-justification "%Ni" % num (no truncation when wider). -/
def rjust (w : Nat) (s : String) : String :=
  String.mk (List.replicate (w - s.length) ' ') ++ s

/-- color() from lines 515-517 applied to a raw ANSI code. -/
def colorFmt (s : String) (ansi : String) : String :=
  ESC ++ "[" ++ ansi ++ "m" ++ s ++ ESC ++ "[0m"

/-- formatTextPL (lines 451-476).  `song` is the queue-entry dict;
`playlistlength` is status["playlistlength"] (direct index, KeyError when
absent); song["pos"] is a direct index too and int() must parse it.  The
COLORS entry for curr is "1" (bold). -/
def formatTextPL (props : List String) (song : String → Option MVal)
    (playlistlength : Option String) (curr : Bool) : Except Unit String := do
  let entry ← plEntryText props song
  let num ←
    match song "pos" with
    | some (MVal.s v) =>
        match v.toInt? with
        | some n => Except.ok (n + 1)
        | none => Except.error ()
    | some (MVal.l _) => Except.error ()
    | none => Except.error ()
  let pl ←
    match playlistlength with
    | some v => Except.ok v
    | none => Except.error ()
  let numstr := rjust pl.length (toString num)
  let resp := "  " ++ numstr ++ "  " ++ entry
  Except.ok (if curr then colorFmt (">" ++ resp.drop 1) "1" else resp)

theorem plEntries_eq_nil (props : List String)
    (song : String → Option MVal)
    (h : ∀ p ∈ props, propText (song p) = none) :
    plEntries props song = [] := by
  induction props with
  | nil => rfl
  | cons p t ih =>
    have hp : propText (song p) = none := h p (List.mem_cons_self p t)
    have ht : ∀ q ∈ t, propText (song q) = none :=
      fun q hq => h q (List.mem_cons_of_mem p hq)
    simp only [plEntries, List.foldl_cons, hp]
    exact ih ht

/-- C10: when every configured metadata field of a queue entry is empty or
missing, the formatter falls back to the last slash-separated component of the
file value; when the file key is also absent, it raises (None has no split)
rather than producing default text, and that error reaches the
formatTextPL interface (concretely exhibited in the last conjunct). -/
theorem formatTextPL_file_fallback (props : List String)
    (song : String → Option MVal) (playlistlength : Option String)
    (curr : Bool) :
    ((∀ p ∈ props, propText (song p) = none) →
      (∀ f, song "file" = some (MVal.s f) →
        plEntryText props song = Except.ok (lastPathComponent f)) ∧
      (song "file" = none →
        plEntryText props song = Except.error () ∧
        formatTextPL props song playlistlength curr = Except.error ())) ∧
    formatTextPL ["title"] (fun _ => none) (some "3") false =
      Except.error () := by
  refine ⟨fun h => ⟨?_, ?_⟩, rfl⟩
  · intro f hf
    have h0 := plEntries_eq_nil props song h
    simp [plEntryText, h0, hf]
  · intro hf
    have h0 := plEntries_eq_nil props song h
    have h1 : plEntryText props song = Except.error () := by
      simp [plEntryText, h0, hf]
    refine ⟨h1, ?_⟩
    simp only [formatTextPL, h1]
    rfl

/-- Witness for C10: filename fallback extracts the tail of the path. -/
theorem formatTextPL_file_fallback_witness :
    plEntryText ["title"]
      (fun p => if p = "file" then some (MVal.s "a/b/c.mp3") else none) =
      Except.ok "c.mp3" := by
  have hall : ∀ p ∈ ["title"],
      propText ((fun p => if p = "file" then some (MVal.s "a/b/c.mp3")
        else none) p) = none := by
    intro p hp
    simp only [List.mem_singleton] at hp
    subst hp
    rfl
  have h := (formatTextPL_file_fallback ["title"]
    (fun p => if p = "file" then some (MVal.s "a/b/c.mp3") else none)
    none false).1 hall
  exact (h.1 "a/b/c.mp3" (by rfl)).trans (by rfl)

end MpcDisplay
